import Mathlib

/-!
Verification of the Ecom-sales-analysis repository (`modularcode.py`):
a shallow embedding of the CSV bulk loaders (`load_csv_to_table` and
`process_csv`), the schema initializer (`create_tables`) and the fifteen
catalog queries (`basic_queries`, `intermediate_queries`,
`advanced_queries`), with theorems about the properties stated in the
specification.
-/

namespace Ecom

/-! ### Text
Python and SQL text values are modelled as lists of characters. -/

abbrev Str : Type := List Char

/-- Character list of a string literal. -/
def str (s : String) : Str := s.data

/-- Lexicographic order on text, as SQLite compares text values
(used by `ORDER BY`, `MIN` and `<`, `<=` on text columns). -/
def strLe : Str → Str → Bool
  | [], _ => true
  | _ :: _, [] => false
  | a :: as, b :: bs => if a = b then strLe as bs else decide (a < b)

/-- Strict text comparison, for `o.order_date > f.first_purchase_date`. -/
def strLt (a b : Str) : Bool := strLe a b && !(a == b)

/-! ### CSV files and tables -/

/-- A delimited input file as read by `pd.read_csv`: a header row of column
names and data rows; a cell holding `none` is a missing value (pandas NaN). -/
structure Csv where
  header : List Str
  rows : List (List (Option Str))

/-- A database table as written by `DataFrame.to_sql`: column names and data
rows; a `none` cell is stored as SQL NULL (pandas writes NaN as NULL). -/
structure Table where
  cols : List Str
  rows : List (List (Option Str))

/-- Column-name cleaning from `process_csv`: the three substring replacements
`col.replace(space, underscore).replace(dash, underscore).replace(dot, underscore)`
each replace a single character, so together they are this character map. -/
def cleanChar (c : Char) : Char :=
  if c = ' ' ∨ c = '-' ∨ c = '.' then '_' else c

/-- Cleaned column name. -/
def cleanCol (col : Str) : Str := col.map cleanChar

/-- `load_csv_to_table` (modularcode.py, lines 46-49): `pd.read_csv` followed by
`df.to_sql(table_name, conn, if_exists=replace, index=False)`. The column names
of the frame are written unchanged; missing values are stored as NULL. -/
def load_csv_to_table (csv : Csv) : Table :=
  { cols := csv.header, rows := csv.rows }

/-- `process_csv` (modularcode.py, lines 306-316): `pd.read_csv`, then
`df.where(pd.notnull(df), None)` (missing values become NULL), then the
column-name cleaning, then `to_sql(..., if_exists=replace, index=False)`. -/
def process_csv (csv : Csv) : Table :=
  { cols := csv.header.map cleanCol, rows := csv.rows }

/-! ### The store: named tables -/

/-- The relational store: a mapping from table names to tables, `none` when no
table of that name exists. -/
def Store : Type := Str → Option Table

/-- Write table `name`, replacing any prior contents (`if_exists=replace`). -/
def setTable (s : Store) (name : Str) (t : Table) : Store :=
  fun n => if n = name then some t else s n

/-- `load_csv_to_table` at the store level: the target table is replaced by the
file contents, whatever it held before. -/
def loadCsvStore (csv : Csv) (name : Str) (s : Store) : Store :=
  setTable s name (load_csv_to_table csv)

/-- One `CREATE TABLE IF NOT EXISTS name (cols...)` statement: creates an empty
table with the given columns when absent, and is a no-op when a table of that
name already exists (it never fails). -/
def createTableIfNotExists (name : Str) (cols : List Str) (s : Store) : Store :=
  fun n => if n = name then some ((s name).getD { cols := cols, rows := [] }) else s n

def customersCols : List Str := [str "customer_id", str "name", str "city", str "state"]

def ordersCols : List Str :=
  [str "order_id", str "customer_id", str "order_date", str "amount", str "payment_type"]

def productsCols : List Str := [str "product_id", str "category", str "price"]

def orderProductsCols : List Str := [str "order_id", str "product_id"]

def salesCols : List Str := [str "seller_id", str "amount"]

/-- The five table names created by `create_tables`. -/
def tableNames : List Str :=
  [str "customers", str "orders", str "products", str "order_products", str "sales"]

/-- `create_tables` (modularcode.py, lines 4-44): five
`CREATE TABLE IF NOT EXISTS` statements, in source order. -/
def create_tables (s : Store) : Store :=
  createTableIfNotExists (str "sales") salesCols
    (createTableIfNotExists (str "order_products") orderProductsCols
      (createTableIfNotExists (str "products") productsCols
        (createTableIfNotExists (str "orders") ordersCols
          (createTableIfNotExists (str "customers") customersCols s))))

/-! ### Helper lemmas for the store -/

lemma cine_eq_of_isSome (name : Str) (cols : List Str) (s : Store)
    (h : (s name).isSome) : createTableIfNotExists name cols s = s := by
  funext n
  unfold createTableIfNotExists
  by_cases hn : n = name
  · subst hn
    cases hs : s n with
    | none => rw [hs] at h; simp at h
    | some t => simp [hs]
  · simp [hn]

lemma cine_isSome_self (name : Str) (cols : List Str) (s : Store) :
    ((createTableIfNotExists name cols s) name).isSome := by
  unfold createTableIfNotExists
  simp

lemma cine_isSome_mono (name : Str) (cols : List Str) (s : Store) (n : Str)
    (h : (s n).isSome) : ((createTableIfNotExists name cols s) n).isSome := by
  unfold createTableIfNotExists
  by_cases hn : n = name
  · subst hn
    cases hs : s n with
    | none => rw [hs] at h; simp at h
    | some t => simp [hs]
  · simp [hn, h]

lemma create_tables_isSome (s : Store) (n : Str) (hn : n ∈ tableNames) :
    ((create_tables s) n).isSome := by
  unfold create_tables
  simp only [tableNames, List.mem_cons, List.not_mem_nil, or_false] at hn
  rcases hn with h | h | h | h | h
  all_goals subst h
  · exact cine_isSome_mono _ _ _ _ (cine_isSome_mono _ _ _ _ (cine_isSome_mono _ _ _ _
      (cine_isSome_mono _ _ _ _ (cine_isSome_self _ _ _))))
  · exact cine_isSome_mono _ _ _ _ (cine_isSome_mono _ _ _ _ (cine_isSome_mono _ _ _ _
      (cine_isSome_self _ _ _)))
  · exact cine_isSome_mono _ _ _ _ (cine_isSome_mono _ _ _ _ (cine_isSome_self _ _ _))
  · exact cine_isSome_mono _ _ _ _ (cine_isSome_self _ _ _)
  · exact cine_isSome_self _ _ _

lemma create_tables_eq_of_all_exist (s : Store)
    (h : ∀ n ∈ tableNames, (s n).isSome) : create_tables s = s := by
  unfold create_tables
  rw [cine_eq_of_isSome _ _ _ (h _ (by simp [tableNames]))]
  rw [cine_eq_of_isSome _ _ _ (h _ (by simp [tableNames]))]
  rw [cine_eq_of_isSome _ _ _ (h _ (by simp [tableNames]))]
  rw [cine_eq_of_isSome _ _ _ (h _ (by simp [tableNames]))]
  rw [cine_eq_of_isSome _ _ _ (h _ (by simp [tableNames]))]

/-- A store in which all five tables already exist, as empty tables. -/
def storeAllFive : Store :=
  fun n => if n ∈ tableNames then some { cols := [], rows := [] } else none

/-! ### Claim theorems for the loader and schema initializer -/

/-- C7: running the bulk loader twice in succession on the same file and table
leaves the table equal to its contents after a single run, for every prior
store contents: `if_exists=replace` replaces rather than appends. -/
theorem load_csv_to_table_idempotent (csv : Csv) (name : Str) (s : Store) :
    loadCsvStore csv name (loadCsvStore csv name s) = loadCsvStore csv name s := by
  funext n
  unfold loadCsvStore setTable
  by_cases hn : n = name <;> simp [hn]

/-- C8: `create_tables` is idempotent: invoking it twice equals invoking it
once, and on a store where the five tables already exist it is a no-op (and,
being a total function, it does not fail). -/
theorem create_tables_idempotent :
    (∀ s : Store, create_tables (create_tables s) = create_tables s) ∧
    (∀ s : Store, (∀ n ∈ tableNames, (s n).isSome) → create_tables s = s) := by
  constructor
  · intro s
    exact create_tables_eq_of_all_exist (create_tables s) (create_tables_isSome s)
  · exact create_tables_eq_of_all_exist

/-- Witness for C8: on a concrete store holding all five tables,
`create_tables` changes nothing. -/
theorem create_tables_idempotent_witness : create_tables storeAllFive = storeAllFive := by
  refine create_tables_idempotent.2 storeAllFive ?_
  intro n hn
  unfold storeAllFive
  simp [hn]

/-! ### The typed data model for the query catalog
Row types follow the schemas declared in `create_tables`; amounts and prices
(SQL REAL) are modelled as rationals, dates as `YYYY-MM-DD` text. -/

structure Customer where
  customer_id : Int
  name : Str
  city : Str
  state : Str
deriving DecidableEq

structure Order where
  order_id : Int
  customer_id : Int
  order_date : Str
  amount : ℚ
  payment_type : Str
deriving DecidableEq

structure Product where
  product_id : Int
  category : Str
  price : ℚ
deriving DecidableEq

structure OrderProduct where
  order_id : Int
  product_id : Int
deriving DecidableEq

structure Sale where
  seller_id : Int
  amount : ℚ
deriving DecidableEq

/-- A populated database: the contents of the five tables. -/
structure DB where
  customers : List Customer
  orders : List Order
  products : List Product
  order_products : List OrderProduct
  sales : List Sale
deriving DecidableEq

/-- The freshly created database: five empty tables. -/
def emptyDB : DB := ⟨[], [], [], [], []⟩

/-! ### SQL primitives -/

/-- SQL aggregate `SUM` over a column: NULL on an empty set of rows. -/
def sqlSum (l : List ℚ) : Option ℚ := if l = [] then none else some l.sum

/-- SQLite division: NULL when either operand is NULL or the divisor is zero
(SQLite yields NULL, not an error, on division by zero). -/
def sqlDiv (a b : Option ℚ) : Option ℚ :=
  match a, b with
  | some x, some y => if y = 0 then none else some (x / y)
  | _, _ => none

/-- SQLite multiplication with NULL propagation. -/
def sqlMul (a b : Option ℚ) : Option ℚ :=
  match a, b with
  | some x, some y => some (x * y)
  | _, _ => none

/-- SQLite subtraction with NULL propagation. -/
def sqlSub (a b : Option ℚ) : Option ℚ :=
  match a, b with
  | some x, some y => some (x - y)
  | _, _ => none

/-- `strftime` with format `%Y` on a `YYYY-MM-DD` text date: the year text. -/
def strftimeY (d : Str) : Str := d.take 4

/-- `strftime` with format `%m`: the month text, characters 5 and 6. -/
def strftimeM (d : Str) : Str := (d.drop 5).take 2

/-- `strftime` with format `%Y-%m`: the first seven characters. -/
def strftimeYM (d : Str) : Str := d.take 7

/-- SQL `GROUP BY`: the distinct keys of the rows `l` under `key`, one output
row per key. -/
def groupKeys {α β : Type} [DecidableEq β] (key : α → β) (l : List α) : List β :=
  (l.map key).dedup

/-- SQL aggregate `MIN` over a nonempty set of text values. -/
def minDate (l : List Str) : Str :=
  match l with
  | [] => []
  | d :: ds => ds.foldl (fun a b => if strLe b a then b else a) d

/-- Digits of a `YYYY`, `MM` or `DD` field as a number. -/
def digitsToNat (s : Str) : ℕ := s.foldl (fun n c => n * 10 + (c.toNat - 48)) 0

/-- A number printed back as a zero-padded field. -/
def natToField (width n : ℕ) : Str :=
  let ds := Nat.toDigits 10 n
  List.replicate (width - ds.length) '0' ++ ds

/-- Days in a month, with the Gregorian leap-year rule, as SQLite uses when it
normalizes dates. -/
def daysInMonth (y m : ℕ) : ℕ :=
  if m = 2 then (if (y % 4 = 0 ∧ y % 100 ≠ 0) ∨ y % 400 = 0 then 29 else 28)
  else if m = 4 ∨ m = 6 ∨ m = 9 ∨ m = 11 then 30 else 31

/-- SQLite `date(d, +6 months)` on a `YYYY-MM-DD` text date: six is added to
the month field with the year carried, and a day past the end of the resulting
month is normalized by rolling into the following month. -/
def dateAdd6Months (d : Str) : Str :=
  let y := digitsToNat (d.take 4)
  let m := digitsToNat ((d.drop 5).take 2)
  let day := digitsToNat ((d.drop 8).take 2)
  let m6 := m + 6
  let y2 := y + (m6 - 1) / 12
  let m2 := (m6 - 1) % 12 + 1
  let dim := daysInMonth y2 m2
  let ymd :=
    if day ≤ dim then (y2, m2, day)
    else if m2 = 12 then (y2 + 1, 1, day - dim) else (y2, m2 + 1, day - dim)
  natToField 4 ymd.1 ++ ['-'] ++ natToField 2 ymd.2.1 ++ ['-'] ++ natToField 2 ymd.2.2

/-! ### Basic queries (modularcode.py, lines 51-86) -/

/-- Basic query 1: `SELECT DISTINCT city FROM customers`. -/
def basicQuery1 (db : DB) : List Str := (db.customers.map (·.city)).dedup

/-- Basic query 2: `SELECT COUNT(*) FROM orders WHERE strftime(%Y, order_date) = 2017`. -/
def basicQuery2 (db : DB) : ℕ :=
  (db.orders.filter fun o => strftimeY o.order_date = str "2017").length

/-- The join `orders o JOIN order_products op ON o.order_id = op.order_id
JOIN products p ON op.product_id = p.product_id`, carrying the
`(p.category, o.amount)` pair of each matching row triple. -/
def categoryJoin (db : DB) : List (Str × ℚ) :=
  db.orders.flatMap fun o =>
    (db.order_products.filter fun op => op.order_id = o.order_id).flatMap fun op =>
      (db.products.filter fun p => p.product_id = op.product_id).map fun p =>
        (p.category, o.amount)

/-- Basic query 3: `SELECT p.category, SUM(o.amount) FROM` the join above
`GROUP BY p.category`. The identical SQL text also appears as the
`category_revenue` common table expression of intermediate query 3. -/
def basicQuery3 (db : DB) : List (Str × ℚ) :=
  (groupKeys Prod.fst (categoryJoin db)).map fun c =>
    (c, (((categoryJoin db).filter fun r => r.1 = c).map Prod.snd).sum)

/-- Basic query 4: `SELECT SUM(CASE WHEN payment_type = Installment THEN 1 ELSE 0 END)
* 100.0 / COUNT(*) FROM orders` (a single result row, NULL on an empty table). -/
def basicQuery4 (db : DB) : Option ℚ :=
  sqlDiv
    (sqlMul (sqlSum (db.orders.map fun o =>
      if o.payment_type = str "Installment" then (1 : ℚ) else 0)) (some 100))
    (some (db.orders.length : ℚ))

/-- Basic query 5: `SELECT state, COUNT(*) FROM customers GROUP BY state`. -/
def basicQuery5 (db : DB) : List (Str × ℕ) :=
  (groupKeys (·.state) db.customers).map fun st =>
    (st, (db.customers.filter fun c => c.state = st).length)

/-! ### Intermediate queries (modularcode.py, lines 88-161) -/

/-- Intermediate query 1: orders per month in 2018. -/
def intermediateQuery1 (db : DB) : List (Str × ℕ) :=
  let l := db.orders.filter fun o => strftimeY o.order_date = str "2018"
  (groupKeys (fun o => strftimeM o.order_date) l).map fun m =>
    (m, (l.filter fun o => strftimeM o.order_date = m).length)

/-- The join of the `order_counts` common table expression:
`orders o JOIN order_products op ON o.order_id = op.order_id JOIN customers c
ON o.customer_id = c.customer_id`, carrying `(o.order_id, c.city)`. -/
def orderCityJoin (db : DB) : List (Int × Str) :=
  db.orders.flatMap fun o =>
    (db.order_products.filter fun op => op.order_id = o.order_id).flatMap fun _op =>
      (db.customers.filter fun c => c.customer_id = o.customer_id).map fun c =>
        (o.order_id, c.city)

/-- The `order_counts` common table expression: `GROUP BY o.order_id, c.city`
with `COUNT(op.product_id)`. -/
def order_counts (db : DB) : List ((Int × Str) × ℕ) :=
  (groupKeys id (orderCityJoin db)).map fun k =>
    (k, ((orderCityJoin db).filter fun r => r = k).length)

/-- Intermediate query 2: `SELECT city, AVG(product_count) FROM order_counts
GROUP BY city`. -/
def intermediateQuery2 (db : DB) : List (Str × ℚ) :=
  (groupKeys (fun r => r.1.2) (order_counts db)).map fun city =>
    let g := (order_counts db).filter fun r => r.1.2 = city
    (city, (g.map fun r => (r.2 : ℚ)).sum / (g.length : ℚ))

/-- The `total_revenue` common table expression: `SELECT SUM(amount) FROM orders`. -/
def total_revenue (db : DB) : Option ℚ := sqlSum (db.orders.map (·.amount))

/-- Intermediate query 3: `SELECT category, (category_total / total) * 100 FROM
category_revenue`, where `category_revenue` is the same grouped join as basic
query 3 and `total` is `total_revenue` (NULL-propagating SQLite arithmetic). -/
def intermediateQuery3 (db : DB) : List (Str × Option ℚ) :=
  (basicQuery3 db).map fun r =>
    (r.1, sqlMul (sqlDiv (some r.2) (total_revenue db)) (some 100))

/-- The join of the `product_sales` common table expression: one
`(product_id, price)` row per matching `order_products` row. -/
def productSalesJoin (db : DB) : List (Int × ℚ) :=
  db.products.flatMap fun p =>
    (db.order_products.filter fun op => op.product_id = p.product_id).map fun _op =>
      (p.product_id, p.price)

/-- The `product_sales` common table expression: `GROUP BY p.product_id, p.price`
with `COUNT(op.order_id)`. -/
def product_sales (db : DB) : List ((Int × ℚ) × ℕ) :=
  (groupKeys id (productSalesJoin db)).map fun k =>
    (k, ((productSalesJoin db).filter fun r => r = k).length)

/-- Intermediate query 4, the Pearson correlation between price and purchase
count. Its SQL divides a covariance sum by `SQRT(sp) * SQRT(sc)`, which has no
exact rational value, so the result is modelled as the pair of the numerator
and the product `sp * sc` of the two sums of squares (the SQL value is the
numerator divided by the square root of the second component); aggregates over
an empty `product_sales` give NULL. -/
def intermediateQuery4 (db : DB) : Option (ℚ × ℚ) :=
  let ps := product_sales db
  if ps = [] then none else
  let n : ℚ := ps.length
  let avgP : ℚ := (ps.map fun r => r.1.2).sum / n
  let avgC : ℚ := (ps.map fun r => (r.2 : ℚ)).sum / n
  let num := (ps.map fun r => (r.1.2 - avgP) * ((r.2 : ℚ) - avgC)).sum
  let sp := (ps.map fun r => (r.1.2 - avgP) * (r.1.2 - avgP)).sum
  let sc := (ps.map fun r => ((r.2 : ℚ) - avgC) * ((r.2 : ℚ) - avgC)).sum
  some (num, sp * sc)

/-- Intermediate query 5: `SELECT seller_id, SUM(amount) FROM sales GROUP BY
seller_id ORDER BY total_revenue DESC`. -/
def intermediateQuery5 (db : DB) : List (Int × ℚ) :=
  ((groupKeys (·.seller_id) db.sales).map fun sid =>
    (sid, ((db.sales.filter fun s => s.seller_id = sid).map (·.amount)).sum)).mergeSort
    fun a b => decide (b.2 ≤ a.2)

/-! ### Advanced queries (modularcode.py, lines 163-247) -/

/-- Advanced query 1: per customer, orders ranked by date (`ROW_NUMBER`), each
with the average amount of the window of up to three rows ending at it. -/
def advancedQuery1 (db : DB) : List (Int × Str × ℚ × ℚ) :=
  (groupKeys (·.customer_id) db.orders).flatMap fun cid =>
    let ranked := (db.orders.filter fun o => o.customer_id = cid).mergeSort
      fun a b => strLe a.order_date b.order_date
    let amounts := ranked.map (·.amount)
    ranked.enum.map fun ir =>
      let lo := ir.1 - 2
      let w := (amounts.drop lo).take (ir.1 + 1 - lo)
      (cid, ir.2.order_date, ir.2.amount, w.sum / (w.length : ℚ))

/-- The `monthly_sales` common table expression: orders grouped by
`strftime(%Y-%m, order_date)` with `SUM(amount)`. -/
def monthly_sales (db : DB) : List (Str × ℚ) :=
  (groupKeys (fun o => strftimeYM o.order_date) db.orders).map fun ym =>
    (ym, ((db.orders.filter fun o => strftimeYM o.order_date = ym).map (·.amount)).sum)

/-- Advanced query 2: `monthly_sales` regrouped by year and month of
`year_month` with `SUM(monthly_sales)`, ordered by `year_month` (the displayed
`year_month` of each group is that of a representative row). -/
def advancedQuery2 (db : DB) : List (Str × ℚ) :=
  let ms := monthly_sales db
  ((groupKeys (fun r => (strftimeY r.1, strftimeM r.1)) ms).map fun k =>
    let g := ms.filter fun r => (strftimeY r.1, strftimeM r.1) = k
    (((g.map Prod.fst).head?).getD [], (g.map Prod.snd).sum)).mergeSort
    fun a b => strLe a.1 b.1

/-- The `yearly_sales` common table expression: orders grouped by
`strftime(%Y, order_date)` with `SUM(amount)`. -/
def yearly_sales (db : DB) : List (Str × ℚ) :=
  (groupKeys (fun o => strftimeY o.order_date) db.orders).map fun y =>
    (y, ((db.orders.filter fun o => strftimeY o.order_date = y).map (·.amount)).sum)

/-- `LAG(total_sales) OVER (ORDER BY year)` on the already-ordered rows: each
row is paired with the value of the previous row, NULL for the first row. -/
def lagRows : List (Str × ℚ) → Option ℚ → List (Str × ℚ × Option ℚ)
  | [], _ => []
  | r :: rest, prev => (r.1, r.2, prev) :: lagRows rest (some r.2)

/-- Advanced query 3: year, total sales, previous-year sales (`LAG`) and growth
rate `(total_sales - LAG(...)) * 100.0 / LAG(...)`, with SQLite NULL
propagation in the arithmetic. -/
def advancedQuery3 (db : DB) : List (Str × ℚ × Option ℚ × Option ℚ) :=
  (lagRows ((yearly_sales db).mergeSort fun a b => strLe a.1 b.1) none).map fun r =>
    (r.1, r.2.1, r.2.2, sqlDiv (sqlMul (sqlSub (some r.2.1) r.2.2) (some 100)) r.2.2)

/-- The `first_purchase` common table expression: per customer,
`MIN(order_date)`. -/
def first_purchase (db : DB) : List (Int × Str) :=
  (groupKeys (·.customer_id) db.orders).map fun cid =>
    (cid, minDate ((db.orders.filter fun o => o.customer_id = cid).map (·.order_date)))

/-- The `subsequent_purchases` common table expression: the distinct customers
with an order strictly after their first purchase and at most six months
later. -/
def subsequent_purchases (db : DB) : List Int :=
  (((first_purchase db).filter fun f =>
    db.orders.any fun o =>
      o.customer_id = f.1 ∧ strLt f.2 o.order_date = true ∧
        strLe o.order_date (dateAdd6Months f.2) = true).map Prod.fst).dedup

/-- Advanced query 4: the retention rate
`COUNT(DISTINCT subsequent) * 100.0 / COUNT(DISTINCT first)` over the left
join of `first_purchase` with `subsequent_purchases` (NULL, not an error, when
there are no customers). -/
def advancedQuery4 (db : DB) : Option ℚ :=
  sqlDiv (some (((subsequent_purchases db).dedup.length : ℚ) * 100))
    (some ((((first_purchase db).map Prod.fst).dedup.length : ℚ)))

/-- The `yearly_spending` common table expression: orders grouped by
`(strftime(%Y, order_date), customer_id)` with `SUM(amount)`. -/
def yearly_spending (db : DB) : List ((Str × Int) × ℚ) :=
  (groupKeys (fun o => (strftimeY o.order_date, o.customer_id)) db.orders).map fun k =>
    (k, ((db.orders.filter fun o =>
      (strftimeY o.order_date, o.customer_id) = k).map (·.amount)).sum)

/-- Advanced query 5: within each year, the rows of `yearly_spending` ranked by
`total_spent` descending (`ROW_NUMBER() OVER (PARTITION BY year ORDER BY
total_spent DESC)`), keeping the rows with rank at most 3. -/
def advancedQuery5 (db : DB) : List ((Str × Int) × ℚ) :=
  (groupKeys (fun r => r.1.1) (yearly_spending db)).flatMap fun y =>
    (((yearly_spending db).filter fun r => r.1.1 = y).mergeSort
      fun a b => decide (b.2 ≤ a.2)).take 3

/-! ### The typed load pipeline of `main` -/

/-- `load_csv_to_table` into the `customers` table: contents replaced. -/
def loadCustomers (rows : List Customer) (db : DB) : DB := { db with customers := rows }

/-- `load_csv_to_table` into the `orders` table: contents replaced. -/
def loadOrders (rows : List Order) (db : DB) : DB := { db with orders := rows }

/-- `load_csv_to_table` into the `products` table: contents replaced. -/
def loadProducts (rows : List Product) (db : DB) : DB := { db with products := rows }

/-- `load_csv_to_table` into the `order_products` table: contents replaced. -/
def loadOrderProducts (rows : List OrderProduct) (db : DB) : DB :=
  { db with order_products := rows }

/-- `load_csv_to_table` into the `sales` table: contents replaced. -/
def loadSales (rows : List Sale) (db : DB) : DB := { db with sales := rows }

/-- The load phase of `main`: `create_tables` on a fresh database, then the
five files loaded in source order, each replacing its table. The loader
performs no validation of the rows it is given. -/
def mainLoad (cs : List Customer) (os : List Order) (ps : List Product)
    (ops : List OrderProduct) (ss : List Sale) : DB :=
  loadSales ss (loadOrderProducts ops (loadProducts ps (loadOrders os
    (loadCustomers cs emptyDB))))

/-- Referential integrity as stated by the specification: every order
references an existing customer, and every order_products row references an
existing order and an existing product. -/
def refIntegrity (db : DB) : Bool :=
  (db.orders.all fun o => db.customers.any fun c => c.customer_id = o.customer_id) &&
  (db.order_products.all fun op =>
    (db.orders.any fun o => o.order_id = op.order_id) &&
    (db.products.any fun p => p.product_id = op.product_id))

/-! ### The query catalog as an ordered, state-threading run
`basic_queries`, `intermediate_queries` and `advanced_queries` each call
`pd.read_sql` on a `SELECT` statement: the result is computed from the store
and the store is left as it was. -/

/-- The fifteen catalog entries, in source order. -/
inductive QueryId
  | b1 | b2 | b3 | b4 | b5
  | i1 | i2 | i3 | i4 | i5
  | a1 | a2 | a3 | a4 | a5
deriving DecidableEq

/-- The printed result frame of one catalog entry. -/
inductive QueryOut where
  | uniqueCities : List Str → QueryOut
  | orderCount2017 : ℕ → QueryOut
  | salesPerCategory : List (Str × ℚ) → QueryOut
  | pctInstallments : Option ℚ → QueryOut
  | customersByState : List (Str × ℕ) → QueryOut
  | ordersPerMonth2018 : List (Str × ℕ) → QueryOut
  | avgProductsPerCity : List (Str × ℚ) → QueryOut
  | pctRevenuePerCategory : List (Str × Option ℚ) → QueryOut
  | priceCorrelation : Option (ℚ × ℚ) → QueryOut
  | revenuePerSeller : List (Int × ℚ) → QueryOut
  | movingAvg : List (Int × Str × ℚ × ℚ) → QueryOut
  | cumulativeSales : List (Str × ℚ) → QueryOut
  | yearlyGrowth : List (Str × ℚ × Option ℚ × Option ℚ) → QueryOut
  | retentionRate : Option ℚ → QueryOut
  | topCustomersPerYear : List ((Str × Int) × ℚ) → QueryOut
deriving DecidableEq

/-- The result frame of each catalog entry on a given database. -/
def evalQuery : QueryId → DB → QueryOut
  | .b1, db => .uniqueCities (basicQuery1 db)
  | .b2, db => .orderCount2017 (basicQuery2 db)
  | .b3, db => .salesPerCategory (basicQuery3 db)
  | .b4, db => .pctInstallments (basicQuery4 db)
  | .b5, db => .customersByState (basicQuery5 db)
  | .i1, db => .ordersPerMonth2018 (intermediateQuery1 db)
  | .i2, db => .avgProductsPerCity (intermediateQuery2 db)
  | .i3, db => .pctRevenuePerCategory (intermediateQuery3 db)
  | .i4, db => .priceCorrelation (intermediateQuery4 db)
  | .i5, db => .revenuePerSeller (intermediateQuery5 db)
  | .a1, db => .movingAvg (advancedQuery1 db)
  | .a2, db => .cumulativeSales (advancedQuery2 db)
  | .a3, db => .yearlyGrowth (advancedQuery3 db)
  | .a4, db => .retentionRate (advancedQuery4 db)
  | .a5, db => .topCustomersPerYear (advancedQuery5 db)

/-- `pd.read_sql` of one catalog `SELECT`: the database after the call together
with the result frame. A `SELECT` reads the store and writes nothing. -/
def execQuery (q : QueryId) (db : DB) : DB × QueryOut := (db, evalQuery q db)

/-- Running a list of catalog entries in order, threading the database through
and collecting each result with its query. -/
def runQueries : List QueryId → DB → DB × List (QueryId × QueryOut)
  | [], db => (db, [])
  | q :: qs, db =>
    let step := execQuery q db
    let rest := runQueries qs step.1
    (rest.1, (q, step.2) :: rest.2)

/-! ### General lemmas about grouped sums -/

lemma sum_map_filter_cons {α β : Type} [DecidableEq β] (key : α → β) (val : α → ℚ)
    (a : α) (t : List α) (K : List β) (hK : K.Nodup) :
    (K.map fun k => (((a :: t).filter fun x => key x = k).map val).sum).sum
      = (if key a ∈ K then val a else 0)
        + (K.map fun k => ((t.filter fun x => key x = k).map val).sum).sum := by
  induction K with
  | nil => simp
  | cons k K ih =>
    rcases List.nodup_cons.mp hK with ⟨hk, hK2⟩
    rw [List.map_cons, List.sum_cons, List.map_cons, List.sum_cons, ih hK2]
    by_cases h : key a = k
    · subst h
      rw [List.filter_cons, if_pos (by simp)]
      have hnot : key a ∉ K := hk
      simp [hnot]
      ring
    · rw [List.filter_cons, if_neg (by simp [h])]
      by_cases hm : key a ∈ K
      · rw [if_pos hm, if_pos (List.mem_cons_of_mem _ hm)]
        ring
      · rw [if_neg hm, if_neg (by simp [List.mem_cons, h, hm])]
        ring

lemma sum_groupKeys {α β : Type} [DecidableEq β] (key : α → β) (val : α → ℚ)
    (l : List α) :
    ((groupKeys key l).map fun k => ((l.filter fun x => key x = k).map val).sum).sum
      = (l.map val).sum := by
  induction l with
  | nil => simp [groupKeys]
  | cons a t ih =>
    unfold groupKeys at ih ⊢
    rw [List.map_cons]
    by_cases h : key a ∈ t.map key
    · rw [List.dedup_cons_of_mem h,
        sum_map_filter_cons key val a t _ (List.nodup_dedup _),
        if_pos (List.mem_dedup.mpr h), ih]
      simp
    · rw [List.dedup_cons_of_not_mem h, List.map_cons, List.sum_cons,
        sum_map_filter_cons key val a t _ (List.nodup_dedup _),
        if_neg (fun hmem => h (List.mem_dedup.mp hmem)), ih]
      have ht : t.filter (fun x => key x = key a) = [] := by
        rw [List.filter_eq_nil_iff]
        intro x hx
        simp only [decide_eq_true_eq]
        intro hkey
        exact h (hkey ▸ List.mem_map_of_mem key hx)
      rw [List.filter_cons, if_pos (by simp), ht]
      simp

/-! ### Claim theorems for the query catalog -/

lemma basicQuery3_sum_eq_join_sum (db : DB) :
    ((basicQuery3 db).map Prod.snd).sum = ((categoryJoin db).map Prod.snd).sum := by
  unfold basicQuery3
  rw [List.map_map]
  have h := sum_groupKeys Prod.fst Prod.snd (categoryJoin db)
  simpa using h

/-- C3: the total-sales-per-category query partitions the join rows by
category, so the sum of the per-category totals equals the sum of the order
amounts over all rows of the orders-to-order_products-to-products join. -/
theorem total_sales_per_category_partition (db : DB) :
    ((basicQuery3 db).map Prod.snd).sum = ((categoryJoin db).map Prod.snd).sum :=
  basicQuery3_sum_eq_join_sum db

/-- A database in which one order of amount 10 is linked to two products of
distinct categories: the orders, order_products and products tables are all
populated. -/
def dbOneOrderTwoCats : DB :=
  { customers := []
    orders := [⟨1, 1, str "2017-01-01", 10, str "Credit"⟩]
    products := [⟨1, str "A", 5⟩, ⟨2, str "B", 5⟩]
    order_products := [⟨1, 1⟩, ⟨1, 2⟩]
    sales := [] }

/-- C2 (counterexample): on `dbOneOrderTwoCats` the percentage-of-revenue
query reports 100 percent for each of the two categories, so the percentages
sum to 200, not 100: an order joined to several categories is counted once per
category while the denominator counts it once. -/
theorem pct_revenue_sum_200 :
    dbOneOrderTwoCats.orders ≠ [] ∧ dbOneOrderTwoCats.order_products ≠ [] ∧
    dbOneOrderTwoCats.products ≠ [] ∧
    ((intermediateQuery3 dbOneOrderTwoCats).map fun r => r.2.getD 0).sum = 200 := by
  refine ⟨by simp [dbOneOrderTwoCats], by simp [dbOneOrderTwoCats],
    by simp [dbOneOrderTwoCats], ?_⟩
  simp [intermediateQuery3, basicQuery3, categoryJoin, groupKeys, total_revenue,
    sqlSum, sqlDiv, sqlMul, dbOneOrderTwoCats, str]
  norm_num

/-- C2 (amended): when the total order amount is nonzero and every order
amount is counted exactly once by the join (the join amounts sum to the
orders total), the category percentages sum to exactly 100; in general they
sum to 100 times the ratio of the join amount sum to the total. -/
theorem pct_revenue_sums_to_100 (db : DB)
    (hne : db.orders ≠ [])
    (htot : (db.orders.map (·.amount)).sum ≠ 0)
    (hjoin : ((categoryJoin db).map Prod.snd).sum = (db.orders.map (·.amount)).sum) :
    ((intermediateQuery3 db).map fun r => r.2.getD 0).sum = 100 := by
  have htv : total_revenue db = some ((db.orders.map (·.amount)).sum) := by
    unfold total_revenue sqlSum
    rw [if_neg (by simpa using hne)]
  have hmap : ((intermediateQuery3 db).map fun r => r.2.getD 0)
      = (basicQuery3 db).map fun r => r.2 / (db.orders.map (·.amount)).sum * 100 := by
    unfold intermediateQuery3
    rw [List.map_map]
    simp [htv, sqlDiv, sqlMul, htot]
  rw [hmap]
  have hfun : ((basicQuery3 db).map fun r => r.2 / (db.orders.map (·.amount)).sum * 100)
      = (basicQuery3 db).map fun r =>
          Prod.snd r * (((db.orders.map (·.amount)).sum)⁻¹ * 100) := by
    simp [div_eq_mul_inv, mul_assoc]
  rw [hfun, List.sum_map_mul_right, basicQuery3_sum_eq_join_sum, hjoin]
  field_simp

/-- A database in which the single order is linked to exactly one product. -/
def dbOneOrderOneCat : DB :=
  { customers := []
    orders := [⟨1, 1, str "2017-01-01", 10, str "Credit"⟩]
    products := [⟨1, str "A", 5⟩]
    order_products := [⟨1, 1⟩]
    sales := [] }

/-- Witness for C2 (amended): on `dbOneOrderOneCat` the percentages sum to
exactly 100. -/
theorem pct_revenue_sums_to_100_witness :
    ((intermediateQuery3 dbOneOrderOneCat).map fun r => r.2.getD 0).sum = 100 :=
  pct_revenue_sums_to_100 dbOneOrderOneCat
    (by simp [dbOneOrderOneCat])
    (by simp [dbOneOrderOneCat])
    (by simp [categoryJoin, dbOneOrderOneCat])

/-! ### Claim theorems for referential integrity (C4) -/

/-- C4 (counterexample): the loader performs no referential checking: loading
an orders file whose single row references customer 99 into a database with no
customers is a run of the loader pipeline, and the resulting state violates
referential integrity. -/
theorem ref_integrity_not_enforced :
    refIntegrity (mainLoad [] [⟨1, 99, str "2017-01-01", 10, str "Credit"⟩] [] [] [])
      = false := by
  decide

/-- C4 (amended): the loader stores the input rows verbatim, so the reachable
state satisfies referential integrity exactly when the loaded input data
itself does: if every input order references an input customer and every input
order_products row references an input order and product, the loaded database
satisfies the invariant. -/
theorem ref_integrity_of_valid_input (cs : List Customer) (os : List Order)
    (ps : List Product) (ops : List OrderProduct) (ss : List Sale)
    (h1 : ∀ o ∈ os, ∃ c ∈ cs, c.customer_id = o.customer_id)
    (h2 : ∀ op ∈ ops, (∃ o ∈ os, o.order_id = op.order_id) ∧
      ∃ p ∈ ps, p.product_id = op.product_id) :
    refIntegrity (mainLoad cs os ps ops ss) = true := by
  unfold refIntegrity mainLoad loadSales loadOrderProducts loadProducts loadOrders
    loadCustomers emptyDB
  simp only [Bool.and_eq_true, List.all_eq_true, List.any_eq_true,
    decide_eq_true_eq]
  refine ⟨fun o ho => ?_, fun op hop => ?_⟩
  · obtain ⟨c, hc, hcc⟩ := h1 o ho
    exact ⟨c, hc, hcc⟩
  · obtain ⟨⟨o, ho, hoo⟩, ⟨p, hp, hpp⟩⟩ := h2 op hop
    exact ⟨⟨o, ho, hoo⟩, ⟨p, hp, hpp⟩⟩

/-- Witness for C4 (amended): a concrete consistent input loads into a state
satisfying referential integrity. -/
theorem ref_integrity_of_valid_input_witness :
    refIntegrity (mainLoad [⟨1, str "x", str "NY", str "NY"⟩]
      [⟨1, 1, str "2017-01-01", 10, str "Cash"⟩] [⟨1, str "A", 5⟩] [⟨1, 1⟩] [])
      = true :=
  ref_integrity_of_valid_input _ _ _ _ _ (by decide) (by decide)

/-! ### Claim theorems for the ratio queries on an empty orders table (C10) -/

/-- C10: when the orders table is empty, both ratio queries whose denominator
is a count over orders return the single value NULL rather than failing: in
the installments percentage the `SUM` aggregate is NULL, so the whole
expression is NULL, and in the retention rate both distinct counts are 0 and
SQLite division by zero yields NULL. -/
theorem empty_orders_ratio_null (db : DB) (h : db.orders = []) :
    basicQuery4 db = none ∧ advancedQuery4 db = none := by
  constructor
  · unfold basicQuery4
    rw [h]
    simp [sqlSum, sqlMul, sqlDiv]
  · unfold advancedQuery4 subsequent_purchases first_purchase groupKeys
    rw [h]
    simp [sqlDiv]

/-- Witness for C10 at the empty database. -/
theorem empty_orders_ratio_null_witness :
    basicQuery4 emptyDB = none ∧ advancedQuery4 emptyDB = none :=
  empty_orders_ratio_null emptyDB rfl

/-! ### Claim theorems for statelessness of the catalog (C9) -/

/-- C9: every catalog entry is a `SELECT` read through `pd.read_sql`: running
any sequence of catalog entries leaves the database unchanged, and the result
recorded for each entry is a function of the initial database alone, so the
same result is produced wherever in the order the entry appears. -/
theorem queries_stateless (qs : List QueryId) (db : DB) :
    (runQueries qs db).1 = db ∧
    ∀ q r, (q, r) ∈ (runQueries qs db).2 → r = evalQuery q db := by
  induction qs with
  | nil => exact ⟨rfl, by simp [runQueries]⟩
  | cons q qs ih =>
    constructor
    · simpa [runQueries, execQuery] using ih.1
    · intro q0 r hmem
      simp only [runQueries, execQuery, List.mem_cons, Prod.mk.injEq] at hmem
      rcases hmem with ⟨hq, hr⟩ | hmem
      · subst hq
        subst hr
        rfl
      · exact ih.2 q0 r hmem

/-- Witness for C9: a concrete one-entry run on the empty database leaves it
unchanged and records the result computed from the initial database. -/
theorem queries_stateless_witness :
    (runQueries [QueryId.b1] emptyDB).1 = emptyDB ∧
    evalQuery QueryId.b1 emptyDB = evalQuery QueryId.b1 emptyDB := by
  refine ⟨(queries_stateless [QueryId.b1] emptyDB).1, ?_⟩
  exact (queries_stateless [QueryId.b1] emptyDB).2 QueryId.b1
    (evalQuery QueryId.b1 emptyDB) (by simp [runQueries, execQuery])

/-! ### Claim theorems for the year-over-year growth query (C5) -/

lemma dedup_map_const {α β : Type} [DecidableEq β] (f : α → β) (y : β)
    (l : List α) (hne : l ≠ []) (hy : ∀ x ∈ l, f x = y) : (l.map f).dedup = [y] := by
  induction l with
  | nil => exact absurd rfl hne
  | cons a t ih =>
    cases t with
    | nil => simp [hy a (by simp)]
    | cons b t2 =>
      have ht : (List.map f (b :: t2)).dedup = [y] :=
        ih (by simp) (fun x hx => hy x (List.mem_cons_of_mem _ hx))
      rw [List.map_cons, List.dedup_cons_of_mem, ht]
      rw [hy a (by simp)]
      apply List.mem_dedup.mp
      rw [ht]
      simp

/-- C5: when all orders fall in a single year, the year-over-year growth query
returns one row for that year whose previous-year sales and growth rate are
both NULL (the `LAG` of the first row is NULL and NULL propagates through the
arithmetic instead of raising a division error). -/
theorem single_year_growth_null (db : DB) (y : Str)
    (hne : db.orders ≠ [])
    (hy : ∀ o ∈ db.orders, strftimeY o.order_date = y) :
    advancedQuery3 db = [(y, (db.orders.map (·.amount)).sum, none, none)] := by
  have hg : groupKeys (fun o => strftimeY o.order_date) db.orders = [y] :=
    dedup_map_const _ y db.orders hne hy
  have hf : db.orders.filter (fun o => strftimeY o.order_date = y) = db.orders :=
    List.filter_eq_self.mpr (fun o ho => by simp [hy o ho])
  have hys : yearly_sales db = [(y, (db.orders.map (·.amount)).sum)] := by
    unfold yearly_sales
    rw [hg, List.map_singleton, hf]
  unfold advancedQuery3
  rw [hys]
  simp [lagRows, sqlDiv, sqlMul, sqlSub]

/-- A database whose two orders both fall in 2017. -/
def dbOneYear : DB :=
  { customers := []
    orders := [⟨1, 1, str "2017-01-05", 3, str "Cash"⟩,
               ⟨2, 1, str "2017-07-01", 4, str "Cash"⟩]
    products := []
    order_products := []
    sales := [] }

/-- Witness for C5: on `dbOneYear` the growth query returns the single 2017
row with NULL previous-year sales and NULL growth rate. -/
theorem single_year_growth_null_witness :
    advancedQuery3 dbOneYear = [(str "2017", 7, none, none)] := by
  have h := single_year_growth_null dbOneYear (str "2017")
    (by simp [dbOneYear]) (by decide)
  rw [h]
  norm_num [dbOneYear]

/-! ### Claim theorems for the top-3-customers-per-year query (C6) -/

lemma filter_flatMap {α β : Type} (K : List β) (f : β → List α) (p : α → Bool) :
    (K.flatMap f).filter p = K.flatMap fun k => (f k).filter p := by
  induction K with
  | nil => rfl
  | cons k K ih => simp only [List.flatMap_cons, List.filter_append, ih]

lemma flatMap_congr_mem {α β : Type} (K : List β) (f g : β → List α)
    (h : ∀ k ∈ K, f k = g k) : K.flatMap f = K.flatMap g := by
  induction K with
  | nil => rfl
  | cons k K ih =>
    simp only [List.flatMap_cons]
    rw [h k (by simp), ih (fun k2 hk2 => h k2 (List.mem_cons_of_mem _ hk2))]

lemma flatMap_single {α β : Type} [DecidableEq β] (K : List β) (hK : K.Nodup)
    (y : β) (hy : y ∈ K) (L : List α) :
    (K.flatMap fun k => if k = y then L else []) = L := by
  induction K with
  | nil => cases hy
  | cons k K ih =>
    rcases List.nodup_cons.mp hK with ⟨hk, hK2⟩
    simp only [List.flatMap_cons]
    by_cases h : k = y
    · subst h
      rw [if_pos rfl]
      have hz : (K.flatMap fun k2 => if k2 = k then L else []) = [] := by
        rw [List.flatMap_eq_nil_iff]
        intro x hx
        apply if_neg
        intro he
        rw [he] at hx
        exact hk hx
      rw [hz, List.append_nil]
    · rw [if_neg h, List.nil_append]
      refine ih hK2 ?_
      rcases List.mem_cons.mp hy with h1 | h1
      · exact absurd h1.symm h
      · exact h1

lemma dedup_pair_filter {α β γ : Type} [DecidableEq β] [DecidableEq γ]
    (f : α → β) (g : α → γ) (y : β) (l : List α) :
    (((l.map fun a => (f a, g a)).dedup.filter fun p => p.1 = y).map Prod.snd)
      = ((l.filter fun a => f a = y).map g).dedup := by
  induction l with
  | nil => rfl
  | cons a t ih =>
    rw [List.map_cons]
    by_cases hmem : (f a, g a) ∈ t.map fun x => (f x, g x)
    · rw [List.dedup_cons_of_mem hmem, ih, List.filter_cons]
      by_cases hfa : f a = y
      · rw [if_pos (by simp [hfa]), List.map_cons]
        obtain ⟨b, hb, hbe⟩ := List.mem_map.mp hmem
        have h1 : f b = f a := congrArg Prod.fst hbe
        have h2 : g b = g a := congrArg Prod.snd hbe
        have hbmem : b ∈ t.filter fun x => f x = y :=
          List.mem_filter.mpr ⟨hb, by simp [h1, hfa]⟩
        have hg : g a ∈ (t.filter fun x => f x = y).map g :=
          h2 ▸ List.mem_map_of_mem g hbmem
        rw [List.dedup_cons_of_mem hg]
      · rw [if_neg (by simp [hfa])]
    · rw [List.dedup_cons_of_not_mem hmem]
      have hLf : (((f a, g a) :: (t.map fun x => (f x, g x)).dedup).filter
          fun p => p.1 = y)
          = if f a = y
            then (f a, g a) :: ((t.map fun x => (f x, g x)).dedup.filter fun p => p.1 = y)
            else (t.map fun x => (f x, g x)).dedup.filter fun p => p.1 = y := by
        rw [List.filter_cons]
        by_cases hfa : f a = y
        · rw [if_pos (by simp [hfa]), if_pos hfa]
        · rw [if_neg (by simp [hfa]), if_neg hfa]
      have hRf : ((a :: t).filter fun x => f x = y)
          = if f a = y then a :: (t.filter fun x => f x = y)
            else t.filter fun x => f x = y := by
        rw [List.filter_cons]
        by_cases hfa : f a = y
        · rw [if_pos (by simp [hfa]), if_pos hfa]
        · rw [if_neg (by simp [hfa]), if_neg hfa]
      rw [hLf, hRf]
      by_cases hfa : f a = y
      · rw [if_pos hfa, if_pos hfa, List.map_cons, ih, List.map_cons]
        have hg : g a ∉ (t.filter fun x => f x = y).map g := by
          intro hga
          obtain ⟨b, hb, hbe⟩ := List.mem_map.mp hga
          rcases List.mem_filter.mp hb with ⟨hbt, hbf⟩
          have hbf2 : f b = y := by simpa using hbf
          refine hmem (List.mem_map.mpr ⟨b, hbt, ?_⟩)
          rw [hbf2, hbe, hfa]
        rw [List.dedup_cons_of_not_mem hg]
      · rw [if_neg hfa, if_neg hfa, ih]

/-- The number of distinct customers that placed at least one order in year
`y`. -/
def customersInYear (db : DB) (y : Str) : ℕ :=
  ((db.orders.filter fun o => strftimeY o.order_date = y).map
    (·.customer_id)).dedup.length

lemma yearly_spending_filter_length (db : DB) (y : Str) :
    ((yearly_spending db).filter fun r => r.1.1 = y).length = customersInYear db y := by
  unfold yearly_spending
  rw [List.filter_map]
  have hcong : ((groupKeys (fun o => (strftimeY o.order_date, o.customer_id))
        db.orders).filter
        ((fun r : (Str × Int) × ℚ => decide (r.1.1 = y)) ∘ fun k =>
          (k, ((db.orders.filter fun o =>
            (strftimeY o.order_date, o.customer_id) = k).map (·.amount)).sum)))
      = ((groupKeys (fun o => (strftimeY o.order_date, o.customer_id))
        db.orders).filter fun k => k.1 = y) := by
    apply List.filter_congr
    intro k _
    rfl
  rw [List.length_map, hcong]
  unfold groupKeys customersInYear
  have h := dedup_pair_filter (fun o : Order => strftimeY o.order_date)
    (fun o : Order => o.customer_id) y db.orders
  calc ((db.orders.map fun o => (strftimeY o.order_date, o.customer_id)).dedup.filter
          fun k => k.1 = y).length
      = (((db.orders.map fun o => (strftimeY o.order_date, o.customer_id)).dedup.filter
          fun k => k.1 = y).map Prod.snd).length := by rw [List.length_map]
    _ = (((db.orders.filter fun o => strftimeY o.order_date = y).map
          (fun o => o.customer_id)).dedup).length := by rw [h]

/-- C6: for a year `y` present in the orders table with fewer than three
distinct customers, the top-3-customers query returns exactly one row per
distinct customer of that year, and every row of the query corresponds to a
`(year, customer)` pair with at least one order. -/
theorem top3_customers_exact (db : DB) (y : Str)
    (hy : ∃ o ∈ db.orders, strftimeY o.order_date = y)
    (hlt : customersInYear db y < 3) :
    ((advancedQuery5 db).filter fun r => r.1.1 = y).length = customersInYear db y ∧
    ∀ r ∈ advancedQuery5 db, ∃ o ∈ db.orders,
      strftimeY o.order_date = r.1.1 ∧ o.customer_id = r.1.2 := by
  have hchunk_mem : ∀ k : Str, ∀ r ∈ (((yearly_spending db).filter
      fun r => r.1.1 = k).mergeSort fun a b => decide (b.2 ≤ a.2)).take 3,
      r.1.1 = k := by
    intro k r hr
    have h1 := List.take_subset 3 _ hr
    have h2 := List.mem_mergeSort.mp h1
    have h3 := (List.mem_filter.mp h2).2
    simpa using h3
  constructor
  · have hyK : y ∈ groupKeys (fun r : (Str × Int) × ℚ => r.1.1) (yearly_spending db) := by
      obtain ⟨o, ho, hoy⟩ := hy
      unfold groupKeys
      apply List.mem_dedup.mpr
      apply List.mem_map.mpr
      refine ⟨((strftimeY o.order_date, o.customer_id),
        ((db.orders.filter fun o2 => (strftimeY o2.order_date, o2.customer_id)
          = (strftimeY o.order_date, o.customer_id)).map (·.amount)).sum), ?_, hoy⟩
      unfold yearly_spending
      apply List.mem_map.mpr
      refine ⟨(strftimeY o.order_date, o.customer_id), ?_, rfl⟩
      unfold groupKeys
      exact List.mem_dedup.mpr (List.mem_map_of_mem _ ho)
    have hcong : ∀ k ∈ groupKeys (fun r : (Str × Int) × ℚ => r.1.1) (yearly_spending db),
        ((((yearly_spending db).filter fun r => r.1.1 = k).mergeSort
          fun a b => decide (b.2 ≤ a.2)).take 3).filter (fun r => r.1.1 = y)
        = if k = y
          then (((yearly_spending db).filter fun r => r.1.1 = y).mergeSort
            fun a b => decide (b.2 ≤ a.2)).take 3
          else [] := by
      intro k hk
      by_cases hky : k = y
      · subst hky
        rw [if_pos rfl]
        apply List.filter_eq_self.mpr
        intro r hr
        simp [hchunk_mem k r hr]
      · rw [if_neg hky]
        apply List.filter_eq_nil_iff.mpr
        intro r hr
        simp [hchunk_mem k r hr, hky]
    have hmain : ((advancedQuery5 db).filter fun r => r.1.1 = y)
        = (((yearly_spending db).filter fun r => r.1.1 = y).mergeSort
            fun a b => decide (b.2 ≤ a.2)).take 3 := by
      unfold advancedQuery5
      rw [filter_flatMap]
      rw [flatMap_congr_mem _ _ _ hcong]
      exact flatMap_single _ (List.nodup_dedup _) y hyK _
    rw [hmain, List.length_take, List.length_mergeSort, yearly_spending_filter_length]
    exact Nat.min_eq_right (Nat.le_of_lt hlt)
  · intro r hr
    unfold advancedQuery5 at hr
    obtain ⟨k, _, hrk⟩ := List.mem_flatMap.mp hr
    have h1 := List.take_subset 3 _ hrk
    have h2 := List.mem_mergeSort.mp h1
    have h3 := (List.mem_filter.mp h2).1
    unfold yearly_spending at h3
    obtain ⟨k2, hk2, hk2r⟩ := List.mem_map.mp h3
    unfold groupKeys at hk2
    obtain ⟨o, ho, hko⟩ := List.mem_map.mp (List.mem_dedup.mp hk2)
    refine ⟨o, ho, ?_, ?_⟩
    · have : k2.1 = strftimeY o.order_date := by rw [← hko]
      rw [← hk2r, this]
    · have : k2.2 = o.customer_id := by rw [← hko]
      rw [← hk2r, this]

/-- A database whose three 2017 orders come from two distinct customers. -/
def dbTwoCustomers : DB :=
  { customers := []
    orders := [⟨1, 1, str "2017-01-01", 5, str "Cash"⟩,
               ⟨2, 2, str "2017-02-01", 3, str "Cash"⟩,
               ⟨3, 1, str "2017-03-01", 2, str "Cash"⟩]
    products := []
    order_products := []
    sales := [] }

/-- Witness for C6: on `dbTwoCustomers`, a year with two distinct customers,
the query returns exactly two rows for 2017. -/
theorem top3_customers_exact_witness :
    ((advancedQuery5 dbTwoCustomers).filter fun r => r.1.1 = str "2017").length = 2 := by
  have h := (top3_customers_exact dbTwoCustomers (str "2017")
    (by decide) (by decide)).1
  rw [h]
  decide

/-! ### Claim theorems for the bulk loader (C1) -/

lemma cleanChar_safe (c : Char) : cleanChar c ≠ ' ' ∧ cleanChar c ≠ '-' ∧ cleanChar c ≠ '.' := by
  unfold cleanChar
  by_cases h : c = ' ' ∨ c = '-' ∨ c = '.'
  · simp [h]
  · rw [if_neg h]
    push_neg at h
    exact h

/-- C1 (amended): `process_csv` yields a table with exactly the source row
count and column count, all rows kept verbatim (so every missing cell is
stored as NULL), and column names free of spaces, dashes and dots;
`load_csv_to_table` also yields exactly the source row and column counts with
rows verbatim, but writes the column names unchanged. -/
theorem loader_shape_and_nulls (csv : Csv)
    (hw : ∀ r ∈ csv.rows, r.length = csv.header.length) :
    (process_csv csv).rows.length = csv.rows.length ∧
    (process_csv csv).cols.length = csv.header.length ∧
    (∀ r ∈ (process_csv csv).rows, r.length = (process_csv csv).cols.length) ∧
    (∀ col ∈ (process_csv csv).cols, ∀ c ∈ col, c ≠ ' ' ∧ c ≠ '-' ∧ c ≠ '.') ∧
    (process_csv csv).rows = csv.rows ∧
    (load_csv_to_table csv).rows.length = csv.rows.length ∧
    (load_csv_to_table csv).cols.length = csv.header.length ∧
    (load_csv_to_table csv).rows = csv.rows := by
  refine ⟨rfl, by simp [process_csv], ?_, ?_, rfl, rfl, rfl, rfl⟩
  · intro r hr
    simp only [process_csv, List.length_map]
    exact hw r hr
  · intro col hcol c hc
    simp only [process_csv, List.mem_map] at hcol
    obtain ⟨h0, _, rfl⟩ := hcol
    simp only [cleanCol, List.mem_map] at hc
    obtain ⟨c0, _, rfl⟩ := hc
    exact cleanChar_safe c0

/-- A concrete input file whose single column name contains a space. -/
def csvSpace : Csv := { header := [str "order date"], rows := [[none], [some (str "5")]] }

/-- C1 (counterexample): `load_csv_to_table` does not normalize column names:
on a file whose header is `order date`, the produced table has a column name
containing a space. -/
theorem load_csv_to_table_keeps_space :
    (load_csv_to_table csvSpace).cols = [str "order date"] ∧ ' ' ∈ str "order date" := by
  constructor
  · rfl
  · decide

/-- Witness for C1 (amended) at the concrete file `csvSpace`. -/
theorem loader_shape_and_nulls_witness :
    (process_csv csvSpace).rows.length = csvSpace.rows.length ∧
    (process_csv csvSpace).cols.length = csvSpace.header.length ∧
    (∀ r ∈ (process_csv csvSpace).rows, r.length = (process_csv csvSpace).cols.length) ∧
    (∀ col ∈ (process_csv csvSpace).cols, ∀ c ∈ col, c ≠ ' ' ∧ c ≠ '-' ∧ c ≠ '.') ∧
    (process_csv csvSpace).rows = csvSpace.rows ∧
    (load_csv_to_table csvSpace).rows.length = csvSpace.rows.length ∧
    (load_csv_to_table csvSpace).cols.length = csvSpace.header.length ∧
    (load_csv_to_table csvSpace).rows = csvSpace.rows :=
  loader_shape_and_nulls csvSpace (by decide)

end Ecom
